import Mathlib

/-!
Verification development for the Alx_DjangoLearnLab repository.

The repository contains three small Django/DRF applications:
  * `advanced-api-project`: a books-and-authors CRUD API with filtering,
    searching and ordering (`api/filters.py`, `api/views.py`,
    `advanced_api_project/api/serializers.py`, `advanced_api_project/api/views.py`);
  * `django_blog`: a blog with posts, comments and tags (`blog/views.py`);
  * `social_media_api`: posts, likes, comments and notifications
    (`posts/views.py`, `posts/models.py`, `notifications/signals.py`).

This file gives a shallow embedding of the data model and of the operations
the claims refer to.  Collections (Django querysets) are embedded as Lean
lists, rows as structures, and the view/serializer logic as pure functions
returning `Except` for the failure paths.  Where the behaviour that decides a
claim lives in framework code that is not part of the repository (the DRF
ordering backend, the Django paginator, the DRF permission-then-validation
request pipeline), the corresponding definition is modelled from the spec and
marked as such in its doc comment; everything else is translated directly
from the repository sources.
-/

namespace Spec2Proof

/-! ### Data model: advanced-api-project (api/models.py) -/

/-- Author row (`api/models.py`): `name = models.CharField(max_length=255)`. -/
structure Author where
  id : Nat
  name : String
deriving Repr, DecidableEq

/-- Book row (`api/models.py`): `title = CharField`, `publication_year =
IntegerField`, `author = ForeignKey(Author)`.  The foreign key is embedded as
the related author's id. -/
structure Book where
  id : Nat
  title : String
  publication_year : Int
  author : Nat
deriving Repr, DecidableEq

/-! ### Case-insensitive substring matching (`icontains` lookups)

Django's `icontains` lookup is a case-insensitive substring test.  It is
embedded on the character lists underlying the strings, so that it evaluates
by kernel reduction. -/

/-- Lower-cased character list of a string. -/
def lowerChars (s : String) : List Char := s.data.map Char.toLower

/-- Whether `needle` occurs as a leading segment of `hay`. -/
def isLeadingSegment : List Char → List Char → Bool
  | [], _ => true
  | _ :: _, [] => false
  | a :: as, b :: bs => a == b && isLeadingSegment as bs

/-- Whether `needle` occurs contiguously anywhere inside `hay`. -/
def isSegmentOf (needle hay : List Char) : Bool :=
  match hay with
  | [] => needle.isEmpty
  | _ :: t => isLeadingSegment needle hay || isSegmentOf needle t

/-- Django `icontains`: case-insensitive substring containment. -/
def icontains (hay needle : String) : Bool :=
  isSegmentOf (lowerChars needle) (lowerChars hay)

/-! ### BookFilter (api/filters.py)

`BookFilter` declares six parameters: `title` (`icontains`), `author_name`
(`icontains` across the `author__name` foreign key), `author` (exact match on
`author__id`), `publication_year` (exact), `publication_year_min` (`gte`),
`publication_year_max` (`lte`). -/

/-- A single declared filter parameter of `BookFilter` together with a value
of its declared type (`CharFilter` carries a string, `NumberFilter` carries a
number). -/
inductive BookFilterParam where
  | title (value : String)
  | author_name (value : String)
  | author (value : Int)
  | publication_year (value : Int)
  | publication_year_min (value : Int)
  | publication_year_max (value : Int)
deriving Repr, DecidableEq

/-- Resolve the `author__name` foreign-key hop: the name of the author row
whose id the book references, if any. -/
def authorNameOf (authors : List Author) (b : Book) : Option String :=
  (authors.find? (fun a => a.id == b.author)).map Author.name

/-- The comparison predicate declared by `BookFilter` for one parameter,
applied to one book.  The `author__name` lookup is an SQL join: a book whose
author id resolves to no author row matches nothing. -/
def bookMatches (authors : List Author) (p : BookFilterParam) (b : Book) : Bool :=
  match p with
  | .title v => icontains b.title v
  | .author_name v =>
    match authorNameOf authors b with
    | some n => icontains n v
    | none => false
  | .author v => decide ((b.author : Int) = v)
  | .publication_year v => decide (b.publication_year = v)
  | .publication_year_min v => decide (v ≤ b.publication_year)
  | .publication_year_max v => decide (b.publication_year ≤ v)

/-- The Query Composer's action for a single `(field, value)` pair: the rows
of the base collection satisfying the declared comparison (Django
`queryset.filter(...)`). -/
def applyBookFilter (authors : List Author) (p : BookFilterParam)
    (books : List Book) : List Book :=
  books.filter (bookMatches authors p)

/-! ### BookSerializer validation (advanced_api_project/api/serializers.py) -/

/-- A DRF field error: the error body names the offending field. -/
structure FieldError where
  field : String
  message : String
deriving Repr, DecidableEq

/-- The error message produced by `validate_publication_year`. -/
def futureYearMsg (currentYear : Int) : String :=
  "Publication year cannot be in the future. Current year is "
    ++ toString currentYear ++ "."

/-- `BookSerializer.validate_publication_year`: rejects a publication year
strictly greater than the current calendar year; DRF attaches the error to
the `publication_year` field of the 400 response body. -/
def validate_publication_year (currentYear value : Int) : Except FieldError Int :=
  if value > currentYear then
    .error { field := "publication_year", message := futureYearMsg currentYear }
  else
    .ok value

/-- Payload of a Book create/update request (`fields = ['id', 'title',
'publication_year', 'author']`, id read-only). -/
structure BookPayload where
  title : String
  publication_year : Int
  author : Nat
deriving Repr, DecidableEq

/-- Create a Book through `BookSerializer`: validation first, and only a
successful validation inserts a row (`serializer.save()` in
`BookCreateView.perform_create`). -/
def createBook (currentYear : Int) (payload : BookPayload) (store : List Book)
    (newId : Nat) : Except FieldError (List Book × Book) :=
  match validate_publication_year currentYear payload.publication_year with
  | .error e => .error e
  | .ok y =>
    let b : Book := { id := newId, title := payload.title,
                      publication_year := y, author := payload.author }
    .ok (store ++ [b], b)

/-- Update a Book through `BookSerializer` (`BookUpdateView.perform_update`):
validation first, and only a successful validation writes the row. -/
def updateBook (currentYear : Int) (bookId : Nat) (payload : BookPayload)
    (store : List Book) : Except FieldError (List Book) :=
  match validate_publication_year currentYear payload.publication_year with
  | .error e => .error e
  | .ok y =>
    .ok (store.map (fun b =>
      if b.id == bookId then
        { b with title := payload.title, publication_year := y,
                 author := payload.author }
      else b))

/-- The book table after a create attempt: an error writes nothing. -/
def booksAfterCreate (currentYear : Int) (payload : BookPayload)
    (store : List Book) (newId : Nat) : List Book :=
  match createBook currentYear payload store newId with
  | .ok (store', _) => store'
  | .error _ => store

/-- The book table after an update attempt: an error writes nothing. -/
def booksAfterUpdate (currentYear : Int) (bookId : Nat) (payload : BookPayload)
    (store : List Book) : List Book :=
  match updateBook currentYear bookId payload store with
  | .ok store' => store'
  | .error _ => store

/-! ### Sorting (the `ordering` query parameter)

The list endpoints delegate ordering to SQL `ORDER BY`.  SQL leaves the
relative order of rows with equal sort keys unspecified; the embedding fixes
one legal, deterministic behaviour — a stable insertion sort, which is what
SQLite exhibits on an unindexed table (rows with equal keys keep their stored
order).  Text columns are compared by code point (SQLite's default BINARY
collation), embedded as a lexicographic comparison of character lists. -/

/-- Stable insertion of `x` into `l`: `x` goes before the first element `y`
with `le x y`. -/
def insertSorted {α : Type} (le : α → α → Bool) (x : α) : List α → List α
  | [] => [x]
  | y :: ys => if le x y then x :: y :: ys else y :: insertSorted le x ys

/-- Stable insertion sort with a boolean comparator. -/
def sortBy {α : Type} (le : α → α → Bool) : List α → List α
  | [] => []
  | x :: xs => insertSorted le x (sortBy le xs)

/-- Code-point lexicographic `≤` on character lists (SQL BINARY collation). -/
def lexLe : List Char → List Char → Bool
  | [], _ => true
  | _ :: _, [] => false
  | a :: as, b :: bs =>
    if a.toNat = b.toNat then lexLe as bs else decide (a.toNat < b.toNat)

/-- The two sortable fields declared by `BookListView`
(`ordering_fields = ['title', 'publication_year']`). -/
inductive SortKey where
  | title
  | publication_year
deriving Repr, DecidableEq

/-- `ORDER BY <field> ASC` comparator for books. -/
def bookLe : SortKey → Book → Book → Bool
  | .title, a, b => lexLe a.title.data b.title.data
  | .publication_year, a, b => decide (a.publication_year ≤ b.publication_year)

/-- The list endpoint's result order for `ordering=field`. -/
def bookAscSort (k : SortKey) (books : List Book) : List Book :=
  sortBy (bookLe k) books

/-- The list endpoint's result order for `ordering=-field`. -/
def bookDescSort (k : SortKey) (books : List Book) : List Book :=
  sortBy (fun a b => bookLe k b a) books

/-- Distinctness of the declared sort field across two books. -/
def sortFieldNe : SortKey → Book → Book → Prop
  | .title, a, b => a.title ≠ b.title
  | .publication_year, a, b => a.publication_year ≠ b.publication_year

instance (k : SortKey) (a b : Book) : Decidable (sortFieldNe k a b) :=
  match k with
  | .title => inferInstanceAs (Decidable (a.title ≠ b.title))
  | .publication_year => inferInstanceAs (Decidable (a.publication_year ≠ b.publication_year))

/-! ### Ordering-parameter validation (Query Composer)

Modelled from the spec: `BookListView` in `api/views.py` declares
`ordering_fields = ['title', 'publication_year']` and default
`ordering = ['title']`, but the code that reads the `ordering` query
parameter is DRF's `OrderingFilter` backend, which is not part of the
repository.  Per the spec (and the repository's own test
`test_invalid_ordering_field`, which asserts a 400), an `ordering` parameter
must name a declared sortable field, optionally prefixed with `-` for
descending; anything else fails with `InvalidOrdering`, and an absent
parameter uses the entity's static default order. -/

inductive ComposeError where
  | invalidOrdering
deriving Repr, DecidableEq

/-- Strip an optional leading `-` (descending marker) from an ordering
parameter, returning (descending?, field name). -/
def splitOrderingParam (s : String) : Bool × String :=
  match s.data with
  | '-' :: rest => (true, String.mk rest)
  | _ => (false, s)

/-- Map an ordering field name to a declared sortable field of
`BookListView`, if it names one. -/
def sortKeyOf? : String → Option SortKey
  | "title" => some SortKey.title
  | "publication_year" => some SortKey.publication_year
  | _ => none

/-- Modelled from the spec: the ordering step of the Query Composer for the
books list endpoint.  A present parameter is validated against the declared
sortable fields (`InvalidOrdering` otherwise); an absent parameter yields the
static default order `ordering = ['title']`. -/
def applyOrdering (param : Option String) (books : List Book) :
    Except ComposeError (List Book) :=
  match param with
  | none => .ok (bookAscSort .title books)
  | some s =>
    let pr := splitOrderingParam s
    match sortKeyOf? pr.2 with
    | none => .error .invalidOrdering
    | some k => .ok (if pr.1 then bookDescSort k books else bookAscSort k books)

/-! ### Raw query parameters and unparseable values

`BookListView.get_queryset` in `advanced_api_project/api/views.py` handles
the legacy `year_min`/`year_max` parameters itself: it calls Python's
`int(...)` and on `ValueError` executes `pass`, leaving the queryset
untouched.  Python's `int` is embedded as digit parsing with an optional
sign. -/

/-- Numeric value of a decimal digit character, if it is one. -/
def digitVal? (c : Char) : Option Nat :=
  if 48 ≤ c.toNat ∧ c.toNat ≤ 57 then some (c.toNat - 48) else none

/-- Left-to-right accumulation of decimal digits; any non-digit fails. -/
def digitsAux : List Char → Nat → Option Nat
  | [], acc => some acc
  | c :: cs, acc =>
    match digitVal? c with
    | some d => digitsAux cs (acc * 10 + d)
    | none => none

/-- Python `int(...)` on a query-parameter string: an optional sign followed
by at least one decimal digit; anything else raises `ValueError`, embedded as
`none`. -/
def parseInt? (s : String) : Option Int :=
  match s.data with
  | [] => none
  | '-' :: cs =>
    if cs.isEmpty then none else (digitsAux cs 0).map (fun n => -(n : Int))
  | '+' :: cs =>
    if cs.isEmpty then none else (digitsAux cs 0).map (fun n => (n : Int))
  | cs => (digitsAux cs 0).map (fun n => (n : Int))

/-- `BookListView.get_queryset` (`advanced_api_project/api/views.py`,
legacy filtering): applies `publication_year__gte`/`__lte` for the
`year_min`/`year_max` parameters when present, non-empty and parseable as
`int`; a `ValueError` is swallowed by `pass`, leaving the queryset
untouched. -/
def legacyGetQueryset (year_min year_max : Option String) (books : List Book) :
    List Book :=
  let q1 :=
    match year_min with
    | none => books
    | some s =>
      if s = "" then books
      else
        match parseInt? s with
        | some n => books.filter (fun b => decide (n ≤ b.publication_year))
        | none => books
  match year_max with
  | none => q1
  | some s =>
    if s = "" then q1
    else
      match parseInt? s with
      | some n => q1.filter (fun b => decide (b.publication_year ≤ n))
      | none => q1

/-- Modelled from the spec and from the legacy `get_queryset` above: the raw
parameter handling of the Query Composer for the declared `BookFilter`
parameters.  `CharFilter` values are used as given; `NumberFilter` values are
parsed as integers, and a value that fails to parse is silently dropped (the
spec documents this edge-case policy, mirroring the `except ValueError: pass`
code path of the repository); unknown parameter names are ignored. -/
def applyRawBookParam (authors : List Author) (name value : String)
    (books : List Book) : List Book :=
  if name = "title" then applyBookFilter authors (.title value) books
  else if name = "author_name" then applyBookFilter authors (.author_name value) books
  else if name = "author" then
    match parseInt? value with
    | some n => applyBookFilter authors (.author n) books
    | none => books
  else if name = "publication_year" then
    match parseInt? value with
    | some n => applyBookFilter authors (.publication_year n) books
    | none => books
  else if name = "publication_year_min" then
    match parseInt? value with
    | some n => applyBookFilter authors (.publication_year_min n) books
    | none => books
  else if name = "publication_year_max" then
    match parseInt? value with
    | some n => applyBookFilter authors (.publication_year_max n) books
    | none => books
  else books

/-- The declared `NumberFilter` parameter names of `BookFilter`. -/
def numberParamNames : List String :=
  ["author", "publication_year", "publication_year_min", "publication_year_max"]

/-- The Query Composer's filtering pass over a full query string: the filter
parameters are applied in sequence to the base collection. -/
def composeBookFilters (authors : List Author) (params : List (String × String))
    (books : List Book) : List Book :=
  params.foldl (fun acc pr => applyRawBookParam authors pr.1 pr.2 acc) books

/-! ### Pager

Modelled from the spec: `PostListView` in `django_blog/blog/views.py`
declares `paginate_by = 10`, but the slicing itself is done by Django's
paginator, which is not part of the repository.  Per the spec (section 4.2),
the Pager takes the composed collection and a requested page number, uses a
fixed page size of 10, returns `{count, results, has_next, has_previous}`,
returns an empty `results` with `has_next = false` for a page beyond the
last, and fails with `InvalidPage` for a page number `≤ 0`. -/

inductive PagerError where
  | invalidPage
deriving Repr, DecidableEq

/-- One page of results plus pagination metadata. -/
structure PageResult (α : Type) where
  count : Nat
  results : List α
  has_next : Bool
  has_previous : Bool
deriving Repr, DecidableEq

/-- The fixed page size (`paginate_by = 10`). -/
def pageSize : Nat := 10

/-- Modelled from the spec: the Pager.  Slices the composed collection into
the requested page. -/
def paginate {α : Type} (collection : List α) (page : Int) :
    Except PagerError (PageResult α) :=
  if page ≤ 0 then .error .invalidPage
  else
    let p := page.toNat
    .ok { count := collection.length
          results := (collection.drop ((p - 1) * pageSize)).take pageSize
          has_next := decide (p * pageSize < collection.length)
          has_previous := decide (1 < p) }

/-! ### Blog posts (django_blog/blog/models.py) -/

/-- Blog post row: `title`, `content`, `published_date`, `author` foreign
key.  The publication date is embedded as a timestamp. -/
structure BlogPost where
  id : Nat
  title : String
  content : String
  published_date : Nat
  author : Nat
deriving Repr, DecidableEq

/-! ### Access guard and guarded endpoints

`BookCreateView` and `BookDeleteView` in `api/views.py` declare
`permission_classes = [IsAuthenticated]`.  The dispatch order — DRF checks
permissions in `initial()`, before the request body is ever parsed or
validated — is framework code not in the repository and is modelled from the
spec's control flow (Request Handler → Access Guard, reject early →
validation). -/

/-- The error kinds surfaced by the guarded endpoints. -/
inductive ApiError where
  | unauthorized
  | forbidden
  | notFound
  | validationFailed (e : FieldError)
deriving Repr, DecidableEq

/-- Modelled from the spec: the create-book endpoint (`BookCreateView`,
`permission_classes = [IsAuthenticated]`).  An unauthenticated caller is
rejected before the payload is validated. -/
def handleCreateBook (auth : Option Nat) (currentYear : Int)
    (payload : BookPayload) (store : List Book) (newId : Nat) :
    Except ApiError (List Book) :=
  match auth with
  | none => .error .unauthorized
  | some _ =>
    match createBook currentYear payload store newId with
    | .error e => .error (.validationFailed e)
    | .ok (store', _) => .ok store'

/-- Modelled from the spec: the delete-book endpoint (`BookDeleteView`,
`permission_classes = [IsAuthenticated]`).  An unauthenticated caller is
rejected before the object is even looked up. -/
def handleDeleteBook (auth : Option Nat) (bookId : Nat) (store : List Book) :
    Except ApiError (List Book) :=
  match auth with
  | none => .error .unauthorized
  | some _ =>
    if store.any (fun b => b.id == bookId) then
      .ok (store.filter (fun b => !(b.id == bookId)))
    else .error .notFound

/-- The book table after a guarded request: an error writes nothing. -/
def booksAfterRequest (r : Except ApiError (List Book)) (old : List Book) :
    List Book :=
  match r with
  | .ok s => s
  | .error _ => old

/-! ### Owner-only writes (social_media_api/posts/views.py and
api/permissions.py) -/

/-- Social-media post row (`posts/models.py`): `author` foreign key and text
`content`. -/
structure Post where
  id : Nat
  author : Nat
  content : String
deriving Repr, DecidableEq

/-- The HTTP methods DRF treats as safe (`permissions.SAFE_METHODS`). -/
def SAFE_METHODS : List String := ["GET", "HEAD", "OPTIONS"]

/-- `IsOwnerOrReadOnly.has_object_permission` (`api/permissions.py`): safe
methods are always allowed; write permission requires
`obj.owner == request.user`. -/
def has_object_permission (method : String) (ownerId userId : Nat) : Bool :=
  if method ∈ SAFE_METHODS then true else ownerId == userId

/-- `PostViewSet.perform_update` (`posts/views.py`): raises a permission
error unless `post.author == request.user`; only then is the serializer
saved. -/
def perform_update (userId : Nat) (post : Post) (newContent : String)
    (store : List Post) : Except ApiError (List Post) :=
  if post.author ≠ userId then .error .forbidden
  else
    .ok (store.map (fun p =>
      if p.id == post.id then { p with content := newContent } else p))

/-- `PostViewSet.perform_destroy` (`posts/views.py`): raises a permission
error unless `instance.author == request.user`; only then is the instance
deleted. -/
def perform_destroy (userId : Nat) (post : Post) (store : List Post) :
    Except ApiError (List Post) :=
  if post.author ≠ userId then .error .forbidden
  else .ok (store.filter (fun p => !(p.id == post.id)))

/-- The post table after a request: an error writes nothing. -/
def postsAfterRequest (r : Except ApiError (List Post)) (old : List Post) :
    List Post :=
  match r with
  | .ok s => s
  | .error _ => old

/-! ### Likes (posts/models.py, posts/views.py) -/

/-- Like row (`posts/models.py`): `user` and `post` foreign keys, with
`unique_together = ('user', 'post')`. -/
structure Like where
  id : Nat
  user : Nat
  post : Nat
deriving Repr, DecidableEq

/-- Whether a Like row is the one of `(userId, postId)`. -/
def likeMatches (userId postId : Nat) (l : Like) : Bool :=
  l.user == userId && l.post == postId

/-- The `unique_together = ('user', 'post')` table constraint: no two Like
rows share their `(user, post)` pair. -/
def UniqueUserPost (likes : List Like) : Prop :=
  likes.Pairwise fun a b => ¬(a.user = b.user ∧ a.post = b.post)

/-- Number of Like rows for a `(user, post)` pair. -/
def likeCount (userId postId : Nat) (likes : List Like) : Nat :=
  (likes.filter (likeMatches userId postId)).length

/-- The like-table part of `PostViewSet.like` (`posts/views.py`):
`Like.objects.get_or_create(user=request.user, post=post)`; if the row
already existed the endpoint answers 400 with `'You have already liked this
post.'` and writes nothing. -/
def get_or_create_like (userId postId newId : Nat) (likes : List Like) :
    Except String (List Like) :=
  if likes.any (likeMatches userId postId) then
    .error "You have already liked this post."
  else .ok (likes ++ [{ id := newId, user := userId, post := postId }])

/-- The like table after a like request: an error writes nothing. -/
def likesAfterRequest (r : Except String (List Like)) (old : List Like) :
    List Like :=
  match r with
  | .ok s => s
  | .error _ => old

/-! ### Notifications (posts/views.py and notifications/signals.py) -/

/-- Notification row (`notifications/models.py`): recipient, actor, verb and
the generic target's object id. -/
structure Notification where
  recipient : Nat
  actor : Nat
  verb : String
  object_id : Nat
deriving Repr, DecidableEq

/-- Notification preference row (`notifications/models.py`): embedded with
the per-user like-notification switch the signal consults, which defaults to
enabled. -/
structure NotificationPreference where
  user : Nat
  like_notifications : Bool
deriving Repr, DecidableEq

/-- `PostViewSet.like` (`posts/views.py`): `get_or_create` the Like, answer
400 if it already existed, and otherwise create a Notification inline — but
only when the liked post's author differs from the liking user
(`if post.author != request.user`). -/
def likeEndpoint (userId : Nat) (post : Post) (newLikeId : Nat)
    (likes : List Like) (notifs : List Notification) :
    Except String (List Like × List Notification) :=
  if likes.any (likeMatches userId post.id) then
    .error "You have already liked this post."
  else
    .ok (likes ++ [{ id := newLikeId, user := userId, post := post.id }],
         if post.author ≠ userId then
           notifs ++ [{ recipient := post.author, actor := userId,
                        verb := "like", object_id := post.id }]
         else notifs)

/-- `like_created_signal` (`notifications/signals.py`): on a newly created
Like, and only when the liking user differs from the post's author, consult
the author's notification preference (creating a default-enabled one if
absent) and create the `like` Notification unless the preference disables
it. -/
def like_created_signal (created : Bool) (likeUser : Nat) (post : Post)
    (prefs : List NotificationPreference) (notifs : List Notification) :
    List NotificationPreference × List Notification :=
  if created then
    if likeUser ≠ post.author then
      match prefs.find? (fun pr => pr.user == post.author) with
      | some pr =>
        if !pr.like_notifications then (prefs, notifs)
        else
          (prefs, notifs ++ [{ recipient := post.author, actor := likeUser,
                               verb := "like", object_id := post.id }])
      | none =>
        (prefs ++ [{ user := post.author, like_notifications := true }],
         notifs ++ [{ recipient := post.author, actor := likeUser,
                      verb := "like", object_id := post.id }])
    else (prefs, notifs)
  else (prefs, notifs)

/-! ### General lemmas about the stable sort -/

theorem insertSorted_perm {α : Type} (le : α → α → Bool) (x : α) :
    ∀ l : List α, (insertSorted le x l).Perm (x :: l) := by
  intro l
  induction l with
  | nil => exact List.Perm.refl _
  | cons y ys ih =>
    by_cases h : le x y = true
    · simp only [insertSorted, if_pos h]
      exact List.Perm.refl _
    · simp only [insertSorted, if_neg h]
      exact (ih.cons y).trans (List.Perm.swap x y ys)

theorem sortBy_perm {α : Type} (le : α → α → Bool) :
    ∀ l : List α, (sortBy le l).Perm l := by
  intro l
  induction l with
  | nil => exact List.Perm.refl _
  | cons x xs ih =>
    exact (insertSorted_perm le x (sortBy le xs)).trans (ih.cons x)

theorem insertSorted_pairwise {α : Type} (le : α → α → Bool)
    (total : ∀ a b, le a b = true ∨ le b a = true)
    (htrans : ∀ a b c, le a b = true → le b c = true → le a c = true)
    (x : α) :
    ∀ l : List α, l.Pairwise (fun a b => le a b = true) →
      (insertSorted le x l).Pairwise (fun a b => le a b = true) := by
  intro l
  induction l with
  | nil =>
    intro _
    simp [insertSorted]
  | cons y ys ih =>
    intro hp
    rw [List.pairwise_cons] at hp
    by_cases h : le x y = true
    · simp only [insertSorted, if_pos h]
      rw [List.pairwise_cons]
      refine ⟨?_, List.pairwise_cons.mpr hp⟩
      intro z hz
      rcases List.mem_cons.mp hz with rfl | hz'
      · exact h
      · exact htrans x y z h (hp.1 z hz')
    · simp only [insertSorted, if_neg h]
      rw [List.pairwise_cons]
      refine ⟨?_, ih hp.2⟩
      intro z hz
      rcases List.mem_cons.mp ((insertSorted_perm le x ys).mem_iff.mp hz) with hzx | hz'
      · rw [hzx]
        rcases total x y with h1 | h1
        · exact absurd h1 h
        · exact h1
      · exact hp.1 z hz'

theorem sortBy_pairwise {α : Type} (le : α → α → Bool)
    (total : ∀ a b, le a b = true ∨ le b a = true)
    (htrans : ∀ a b c, le a b = true → le b c = true → le a c = true) :
    ∀ l : List α, (sortBy le l).Pairwise (fun a b => le a b = true) := by
  intro l
  induction l with
  | nil => simp [sortBy]
  | cons x xs ih => exact insertSorted_pairwise le total htrans x _ ih

theorem sortBy_eq_reverse_of_no_ties {α : Type} (le : α → α → Bool)
    (total : ∀ a b, le a b = true ∨ le b a = true)
    (htrans : ∀ a b c, le a b = true → le b c = true → le a c = true)
    (l : List α)
    (hd : l.Pairwise fun a b => ¬(le a b = true ∧ le b a = true)) :
    sortBy le l = (sortBy (fun a b => le b a) l).reverse := by
  have total' : ∀ a b : α, le b a = true ∨ le a b = true := fun a b => total b a
  have htrans' : ∀ a b c : α, le b a = true → le c b = true → le c a = true :=
    fun a b c h1 h2 => htrans c b a h2 h1
  have noTiesSymm : ∀ {a b : α}, ¬(le a b = true ∧ le b a = true) →
      ¬(le b a = true ∧ le a b = true) := fun h hc => h ⟨hc.2, hc.1⟩
  have p1 : (sortBy le l).Perm l := sortBy_perm le l
  have p2 : (sortBy (fun a b => le b a) l).Perm l := sortBy_perm _ l
  have perm : (sortBy le l).Perm (sortBy (fun a b => le b a) l).reverse :=
    p1.trans (p2.symm.trans (List.reverse_perm _).symm)
  have toStrict : ∀ {a b : α},
      (le a b = true ∧ ¬(le a b = true ∧ le b a = true)) →
      (le a b = true ∧ le b a = false) := by
    intro a b h
    refine ⟨h.1, ?_⟩
    cases hba : le b a
    · rfl
    · exact absurd ⟨h.1, hba⟩ h.2
  have nd1 : (sortBy le l).Pairwise (fun a b => ¬(le a b = true ∧ le b a = true)) :=
    (List.Perm.pairwise_iff (fun h => noTiesSymm h) p1).mpr hd
  have s1 : (sortBy le l).Pairwise (fun a b => le a b = true) :=
    sortBy_pairwise le total htrans l
  have strict1 : (sortBy le l).Pairwise (fun a b => le a b = true ∧ le b a = false) :=
    (s1.and nd1).imp toStrict
  have s2 : (sortBy (fun a b => le b a) l).Pairwise (fun a b => le b a = true) :=
    sortBy_pairwise _ total' htrans' l
  have s2r : ((sortBy (fun a b => le b a) l).reverse).Pairwise
      (fun a b => le a b = true) := by
    rw [List.pairwise_reverse]
    exact s2
  have nd2 : (sortBy (fun a b => le b a) l).Pairwise
      (fun a b => ¬(le a b = true ∧ le b a = true)) :=
    (List.Perm.pairwise_iff (fun h => noTiesSymm h) p2).mpr hd
  have nd2r : ((sortBy (fun a b => le b a) l).reverse).Pairwise
      (fun a b => ¬(le a b = true ∧ le b a = true)) := by
    rw [List.pairwise_reverse]
    exact nd2.imp (fun h => noTiesSymm h)
  have strict2 : ((sortBy (fun a b => le b a) l).reverse).Pairwise
      (fun a b => le a b = true ∧ le b a = false) :=
    (s2r.and nd2r).imp toStrict
  haveI : IsAntisymm α (fun a b => le a b = true ∧ le b a = false) :=
    ⟨fun a b h1 h2 => absurd h2.1 (by simp [h1.2])⟩
  exact List.eq_of_perm_of_sorted perm strict1 strict2

/-! ### Lemmas about the code-point collation -/

theorem char_toNat_inj {a b : Char} (h : a.toNat = b.toNat) : a = b :=
  Char.ext (UInt32.ext h)

theorem string_data_inj {a b : String} (h : a.data = b.data) : a = b := by
  cases a
  cases b
  exact congrArg String.mk h

theorem lexLe_total : ∀ as bs : List Char, lexLe as bs = true ∨ lexLe bs as = true := by
  intro as
  induction as with
  | nil =>
    intro bs
    left
    rfl
  | cons a as ih =>
    intro bs
    cases bs with
    | nil =>
      right
      rfl
    | cons b bs =>
      by_cases hab : a.toNat = b.toNat
      · have hba : b.toNat = a.toNat := hab.symm
        simp only [lexLe, if_pos hab, if_pos hba]
        exact ih bs
      · have hba : ¬ b.toNat = a.toNat := fun h => hab h.symm
        simp only [lexLe, if_neg hab, if_neg hba]
        rcases Nat.lt_or_ge a.toNat b.toNat with h | h
        · left
          exact decide_eq_true h
        · right
          exact decide_eq_true (Nat.lt_of_le_of_ne h hba)

theorem lexLe_trans : ∀ as bs cs : List Char,
    lexLe as bs = true → lexLe bs cs = true → lexLe as cs = true := by
  intro as
  induction as with
  | nil =>
    intro bs cs _ _
    rfl
  | cons a as ih =>
    intro bs cs h1 h2
    cases bs with
    | nil => exact absurd h1 (by simp [lexLe])
    | cons b bs =>
      cases cs with
      | nil => exact absurd h2 (by simp [lexLe])
      | cons c cs =>
        by_cases hab : a.toNat = b.toNat
        · by_cases hbc : b.toNat = c.toNat
          · have hac : a.toNat = c.toNat := hab.trans hbc
            simp only [lexLe, if_pos hab] at h1
            simp only [lexLe, if_pos hbc] at h2
            simp only [lexLe, if_pos hac]
            exact ih bs cs h1 h2
          · have hac : ¬ a.toNat = c.toNat := fun h => hbc (hab.symm.trans h)
            simp only [lexLe, if_neg hbc] at h2
            simp only [lexLe, if_neg hac]
            exact decide_eq_true (hab ▸ of_decide_eq_true h2)
        · by_cases hbc : b.toNat = c.toNat
          · have hac : ¬ a.toNat = c.toNat := fun h => hab (h.trans hbc.symm)
            simp only [lexLe, if_neg hab] at h1
            simp only [lexLe, if_neg hac]
            exact decide_eq_true (hbc ▸ of_decide_eq_true h1)
          · simp only [lexLe, if_neg hab] at h1
            simp only [lexLe, if_neg hbc] at h2
            have hlt : a.toNat < c.toNat :=
              Nat.lt_trans (of_decide_eq_true h1) (of_decide_eq_true h2)
            have hac : ¬ a.toNat = c.toNat := Nat.ne_of_lt hlt
            simp only [lexLe, if_neg hac]
            exact decide_eq_true hlt

theorem lexLe_antisymm : ∀ as bs : List Char,
    lexLe as bs = true → lexLe bs as = true → as = bs := by
  intro as
  induction as with
  | nil =>
    intro bs _ h2
    cases bs with
    | nil => rfl
    | cons b bs => exact absurd h2 (by simp [lexLe])
  | cons a as ih =>
    intro bs h1 h2
    cases bs with
    | nil => exact absurd h1 (by simp [lexLe])
    | cons b bs =>
      by_cases hab : a.toNat = b.toNat
      · have hba : b.toNat = a.toNat := hab.symm
        simp only [lexLe, if_pos hab] at h1
        simp only [lexLe, if_pos hba] at h2
        rw [char_toNat_inj hab, ih bs h1 h2]
      · have hba : ¬ b.toNat = a.toNat := fun h => hab h.symm
        simp only [lexLe, if_neg hab] at h1
        simp only [lexLe, if_neg hba] at h2
        exact absurd (of_decide_eq_true h2) (Nat.lt_asymm (of_decide_eq_true h1))

/-! ### The book comparators are total orders -/

theorem bookLe_total (k : SortKey) : ∀ a b : Book, bookLe k a b = true ∨ bookLe k b a = true := by
  cases k
  · intro a b
    exact lexLe_total _ _
  · intro a b
    rcases le_total a.publication_year b.publication_year with h | h
    · left
      exact decide_eq_true h
    · right
      exact decide_eq_true h

theorem bookLe_trans (k : SortKey) : ∀ a b c : Book,
    bookLe k a b = true → bookLe k b c = true → bookLe k a c = true := by
  cases k
  · intro a b c h1 h2
    exact lexLe_trans _ _ _ h1 h2
  · intro a b c h1 h2
    exact decide_eq_true (le_trans (of_decide_eq_true h1) (of_decide_eq_true h2))

theorem sortFieldNe_no_ties (k : SortKey) (a b : Book) (h : sortFieldNe k a b) :
    ¬(bookLe k a b = true ∧ bookLe k b a = true) := by
  cases k
  · intro hc
    exact h (string_data_inj (lexLe_antisymm _ _ hc.1 hc.2))
  · intro hc
    exact h (le_antisymm (of_decide_eq_true hc.1) (of_decide_eq_true hc.2))

/-! ### Test fixtures used by the witness theorems -/

/-- Two authors, as in the repository's own test fixtures. -/
def authorsW : List Author :=
  [{ id := 1, name := "J.R.R. Tolkien" }, { id := 2, name := "Stephen King" }]

/-- A two-book collection over `authorsW`. -/
def booksW : List Book :=
  [{ id := 1, title := "The Hobbit", publication_year := 1937, author := 1 },
   { id := 2, title := "The Shining", publication_year := 1977, author := 2 }]

/-- The first book of `booksW`. -/
def hobbitW : Book :=
  { id := 1, title := "The Hobbit", publication_year := 1937, author := 1 }

/-! ### Claims C1 to C4 -/

/-- C1: for every declared filter parameter of the books list endpoint
(title contains case-insensitive, author_name contains case-insensitive via
the author foreign key, author id equals, publication_year equals,
publication_year_min gte, publication_year_max lte) and every value of its
declared type, the collection returned by the Query Composer for that single
(field, value) pair is a sub-collection of the unfiltered collection, and
every returned item satisfies the declared comparison predicate for that
field and value. -/
theorem C1_book_filter_subset_sound (authors : List Author) (p : BookFilterParam)
    (books : List Book) :
    (applyBookFilter authors p books).Sublist books ∧
    ∀ b, b ∈ applyBookFilter authors p books →
      b ∈ books ∧ bookMatches authors p b = true := by
  refine ⟨List.filter_sublist books, ?_⟩
  intro b hb
  exact List.mem_filter.mp hb

theorem C1_book_filter_subset_sound_witness :
    hobbitW ∈ booksW ∧ bookMatches authorsW (.author_name "tolkien") hobbitW = true :=
  (C1_book_filter_subset_sound authorsW (.author_name "tolkien") booksW).2
    hobbitW (by decide)

/-- C2: submitting a publication_year strictly greater than the validation
time's current calendar year makes create and update fail with a validation
error naming the field `publication_year` and writes no Book row; a year
equal to the current year is accepted; consequently every book present after
a create either was already stored or has a publication_year not exceeding
the current calendar year. -/
theorem C2_publication_year_guard (currentYear : Int) (payload : BookPayload)
    (store : List Book) (newId bookId : Nat) :
    (payload.publication_year > currentYear →
      (∃ e, createBook currentYear payload store newId = .error e ∧
        e.field = "publication_year") ∧
      booksAfterCreate currentYear payload store newId = store ∧
      (∃ e, updateBook currentYear bookId payload store = .error e ∧
        e.field = "publication_year") ∧
      booksAfterUpdate currentYear bookId payload store = store) ∧
    (payload.publication_year = currentYear →
      ∃ b, createBook currentYear payload store newId = .ok (store ++ [b], b)) ∧
    (∀ b, b ∈ booksAfterCreate currentYear payload store newId →
      b ∈ store ∨ b.publication_year ≤ currentYear) := by
  refine ⟨?_, ?_, ?_⟩
  · intro h
    have hval : validate_publication_year currentYear payload.publication_year
        = .error { field := "publication_year", message := futureYearMsg currentYear } := by
      simp [validate_publication_year, h]
    refine ⟨⟨{ field := "publication_year", message := futureYearMsg currentYear },
             ?_, rfl⟩, ?_,
            ⟨{ field := "publication_year", message := futureYearMsg currentYear },
             ?_, rfl⟩, ?_⟩
    · simp [createBook, hval]
    · simp [booksAfterCreate, createBook, hval]
    · simp [updateBook, hval]
    · simp [booksAfterUpdate, updateBook, hval]
  · intro heq
    have hng : ¬ payload.publication_year > currentYear := by
      rw [heq]
      exact lt_irrefl currentYear
    refine ⟨{ id := newId, title := payload.title,
              publication_year := payload.publication_year,
              author := payload.author }, ?_⟩
    simp [createBook, validate_publication_year, hng]
  · intro b hb
    by_cases h : payload.publication_year > currentYear
    · have heq : booksAfterCreate currentYear payload store newId = store := by
        simp [booksAfterCreate, createBook, validate_publication_year, h]
      rw [heq] at hb
      exact .inl hb
    · have heq : booksAfterCreate currentYear payload store newId
          = store ++ [{ id := newId, title := payload.title,
                        publication_year := payload.publication_year,
                        author := payload.author }] := by
        simp [booksAfterCreate, createBook, validate_publication_year, h]
      rw [heq] at hb
      rcases List.mem_append.mp hb with h1 | h1
      · exact .inl h1
      · refine .inr ?_
        rw [List.mem_singleton.mp h1]
        exact not_lt.mp h

/-- Payload with a publication year beyond any current year used below. -/
def payloadBadW : BookPayload :=
  { title := "Future Book", publication_year := 9999, author := 1 }

/-- Payload whose publication year equals the witness current year. -/
def payloadOkW : BookPayload :=
  { title := "This Year", publication_year := 2026, author := 1 }

theorem C2_publication_year_guard_witness :
    ((∃ e, createBook 2026 payloadBadW booksW 3 = .error e ∧
        e.field = "publication_year") ∧
      booksAfterCreate 2026 payloadBadW booksW 3 = booksW ∧
      (∃ e, updateBook 2026 1 payloadBadW booksW = .error e ∧
        e.field = "publication_year") ∧
      booksAfterUpdate 2026 1 payloadBadW booksW = booksW) ∧
    (∃ b, createBook 2026 payloadOkW booksW 3 = .ok (booksW ++ [b], b)) :=
  ⟨(C2_publication_year_guard 2026 payloadBadW booksW 3 1).1 (by decide),
   (C2_publication_year_guard 2026 payloadOkW booksW 3 1).2.1 (by decide)⟩

/-- C3: an ordering parameter that does not name one of the declared
sortable fields (optionally prefixed with `-`) fails with `InvalidOrdering`;
an absent ordering parameter yields the entity's static default order
(`ordering = ['title']`). -/
theorem C3_ordering_validation (books : List Book) :
    (∀ s : String, sortKeyOf? (splitOrderingParam s).2 = none →
      applyOrdering (some s) books = .error .invalidOrdering) ∧
    applyOrdering none books = .ok (bookAscSort .title books) := by
  constructor
  · intro s h
    simp [applyOrdering, h]
  · rfl

theorem C3_ordering_validation_witness :
    sortKeyOf? (splitOrderingParam "invalid_field").2 = none ∧
    applyOrdering (some "invalid_field") booksW = .error .invalidOrdering :=
  ⟨by decide, (C3_ordering_validation booksW).1 "invalid_field" (by decide)⟩

theorem applyRawBookParam_of_unparseable (authors : List Author)
    (name value : String) (books : List Book)
    (hname : name ∈ numberParamNames) (hval : parseInt? value = none) :
    applyRawBookParam authors name value books = books := by
  simp only [numberParamNames, List.mem_cons, List.not_mem_nil, or_false] at hname
  rcases hname with rfl | rfl | rfl | rfl <;> simp [applyRawBookParam, hval]

/-- C4: a filter parameter whose raw string value fails to parse as its
declared numeric type is silently ignored: the composed collection equals
the one for the same request without that parameter, for every base
collection and every combination of the other parameters; likewise for the
legacy `year_min`/`year_max` handling in
`BookListView.get_queryset`. -/
theorem C4_unparseable_filters_ignored (authors : List Author)
    (name value : String) (ps1 ps2 : List (String × String))
    (books : List Book) (year_min year_max : Option String)
    (hname : name ∈ numberParamNames) (hval : parseInt? value = none) :
    composeBookFilters authors (ps1 ++ (name, value) :: ps2) books
      = composeBookFilters authors (ps1 ++ ps2) books ∧
    legacyGetQueryset (some value) year_max books
      = legacyGetQueryset none year_max books ∧
    legacyGetQueryset year_min (some value) books
      = legacyGetQueryset year_min none books := by
  refine ⟨?_, ?_, ?_⟩
  · unfold composeBookFilters
    rw [List.foldl_append, List.foldl_append, List.foldl_cons]
    congr 1
    exact applyRawBookParam_of_unparseable authors name value _ hname hval
  · by_cases he : value = ""
    · simp [legacyGetQueryset, he]
    · simp [legacyGetQueryset, he, hval]
  · by_cases he : value = ""
    · simp [legacyGetQueryset, he]
    · simp [legacyGetQueryset, he, hval]

theorem C4_unparseable_filters_ignored_witness :
    ("publication_year_min" ∈ numberParamNames ∧ parseInt? "abc" = none) ∧
    composeBookFilters authorsW ([] ++ ("publication_year_min", "abc") :: []) booksW
      = composeBookFilters authorsW ([] ++ []) booksW ∧
    legacyGetQueryset (some "abc") none booksW = legacyGetQueryset none none booksW :=
  ⟨⟨by decide, by decide⟩,
   (C4_unparseable_filters_ignored authorsW "publication_year_min" "abc" [] []
      booksW none none (by decide) (by decide)).1,
   (C4_unparseable_filters_ignored authorsW "publication_year_min" "abc" [] []
      booksW none none (by decide) (by decide)).2.1⟩

/-! ### Claims C5 to C8 -/

/-- C5: the Pager fails with `InvalidPage` for every requested page number
at most 0; for every page number strictly beyond the last non-empty page it
returns the total count with an empty results list and `has_next = false`;
and every successfully returned page holds at most `pageSize` (10) items. -/
theorem C5_pager_bounds {α : Type} (l : List α) (page : Int) :
    (page ≤ 0 → paginate l page = .error .invalidPage) ∧
    (0 < page → l.length ≤ (page.toNat - 1) * pageSize →
      paginate l page = .ok { count := l.length, results := [],
                              has_next := false,
                              has_previous := decide (1 < page.toNat) }) ∧
    (∀ pg, paginate l page = .ok pg → pg.results.length ≤ pageSize) := by
  refine ⟨?_, ?_, ?_⟩
  · intro h
    simp [paginate, h]
  · intro hpos hbeyond
    have hne : ¬ page ≤ 0 := not_le.mpr hpos
    have hdrop : l.drop ((page.toNat - 1) * pageSize) = [] :=
      List.drop_eq_nil_of_le hbeyond
    have hnx : ¬ (page.toNat * pageSize < l.length) := by
      have h1 : (page.toNat - 1) * pageSize ≤ page.toNat * pageSize :=
        Nat.mul_le_mul_right _ (Nat.sub_le _ _)
      omega
    simp [paginate, hne, hdrop, hnx]
  · intro pg hpg
    by_cases h : page ≤ 0
    · simp [paginate, h] at hpg
    · simp only [paginate, if_neg h] at hpg
      injection hpg with h2
      rw [← h2]
      rw [List.length_take]
      exact min_le_left _ _

/-- Three blog posts used by the pager witness. -/
def blogPostsW : List BlogPost :=
  [{ id := 1, title := "First", content := "a", published_date := 100, author := 1 },
   { id := 2, title := "Second", content := "b", published_date := 200, author := 1 },
   { id := 3, title := "Third", content := "c", published_date := 300, author := 2 }]

theorem C5_pager_bounds_witness :
    ((0 : Int) < 5 ∧ blogPostsW.length ≤ ((5 : Int).toNat - 1) * pageSize) ∧
    paginate blogPostsW 5 = .ok { count := blogPostsW.length, results := [],
                                  has_next := false,
                                  has_previous := decide (1 < (5 : Int).toNat) } :=
  ⟨⟨by decide, by decide⟩,
   (C5_pager_bounds blogPostsW 5).2.1 (by decide) (by decide)⟩

/-- C6: an unauthenticated request with a mutating verb on a guarded
endpoint yields `Unauthorized` identically for every payload (the guard runs
before payload validation), and the book table is unchanged — in particular
every existing book still exists after an unauthenticated DELETE on its
id. -/
theorem C6_unauthenticated_guard (currentYear : Int) (payload : BookPayload)
    (store : List Book) (newId bookId : Nat) :
    handleCreateBook none currentYear payload store newId = .error .unauthorized ∧
    handleDeleteBook none bookId store = .error .unauthorized ∧
    booksAfterRequest (handleDeleteBook none bookId store) store = store ∧
    ∀ b, b ∈ store → b ∈ booksAfterRequest (handleDeleteBook none b.id store) store :=
  ⟨rfl, rfl, rfl, fun _ hb => hb⟩

theorem C6_unauthenticated_guard_witness :
    hobbitW ∈ booksW ∧
    hobbitW ∈ booksAfterRequest (handleDeleteBook none hobbitW.id booksW) booksW :=
  ⟨by decide,
   (C6_unauthenticated_guard 2026 payloadOkW booksW 3 1).2.2.2 hobbitW (by decide)⟩

/-- C7: under the owner-write policy, an authenticated caller who is not the
entity's owning user gets `Forbidden` from update and delete, the post table
is unchanged, and `IsOwnerOrReadOnly.has_object_permission` denies the
mutating methods. -/
theorem C7_owner_write_guard (userId : Nat) (post : Post) (newContent : String)
    (store : List Post) (h : post.author ≠ userId) :
    perform_update userId post newContent store = .error .forbidden ∧
    perform_destroy userId post store = .error .forbidden ∧
    postsAfterRequest (perform_update userId post newContent store) store = store ∧
    postsAfterRequest (perform_destroy userId post store) store = store ∧
    has_object_permission "PUT" post.author userId = false ∧
    has_object_permission "DELETE" post.author userId = false := by
  have h1 : perform_update userId post newContent store = .error .forbidden := by
    simp [perform_update, h]
  have h2 : perform_destroy userId post store = .error .forbidden := by
    simp [perform_destroy, h]
  refine ⟨h1, h2, ?_, ?_, ?_, ?_⟩
  · rw [h1]
    rfl
  · rw [h2]
    rfl
  · simp [has_object_permission, SAFE_METHODS, h]
  · simp [has_object_permission, SAFE_METHODS, h]

/-- A post owned by user 1, used by the witnesses. -/
def postW : Post := { id := 4, author := 1, content := "hello" }

/-- A one-post store. -/
def postStoreW : List Post := [postW]

theorem C7_owner_write_guard_witness :
    perform_update 2 postW "edit" postStoreW = .error .forbidden ∧
    perform_destroy 2 postW postStoreW = .error .forbidden ∧
    postsAfterRequest (perform_update 2 postW "edit" postStoreW) postStoreW = postStoreW ∧
    postsAfterRequest (perform_destroy 2 postW postStoreW) postStoreW = postStoreW ∧
    has_object_permission "PUT" postW.author 2 = false ∧
    has_object_permission "DELETE" postW.author 2 = false :=
  C7_owner_write_guard 2 postW "edit" postStoreW (by decide)

theorem length_filter_eq_one {α : Type} (p : α → Bool) :
    ∀ l : List α, (∃ x ∈ l, p x = true) →
      (l.Pairwise fun a b => ¬(p a = true ∧ p b = true)) →
      (l.filter p).length = 1 := by
  intro l
  induction l with
  | nil =>
    intro hex _
    rcases hex with ⟨x, hx, _⟩
    cases hx
  | cons a t ih =>
    intro hex hpw
    rw [List.pairwise_cons] at hpw
    by_cases ha : p a = true
    · rw [List.filter_cons_of_pos ha]
      have ht : t.filter p = [] := by
        rw [List.filter_eq_nil_iff]
        intro x hx hpx
        exact hpw.1 x hx ⟨ha, hpx⟩
      rw [ht]
      rfl
    · rw [List.filter_cons_of_neg ha]
      apply ih
      · rcases hex with ⟨x, hx, hpx⟩
        rcases List.mem_cons.mp hx with hxa | hx'
        · exact absurd (hxa ▸ hpx) ha
        · exact ⟨x, hx', hpx⟩
      · exact hpw.2

/-- C8: when a Like by the same user on the same post already exists, a
second like request returns the already-liked validation error and leaves
the Like table unchanged, so the count of Likes for the pair is exactly 1
before and after the second call. -/
theorem C8_double_like_rejected (userId postId newId : Nat) (likes : List Like)
    (huniq : UniqueUserPost likes)
    (hex : ∃ x ∈ likes, likeMatches userId postId x = true) :
    get_or_create_like userId postId newId likes
      = .error "You have already liked this post." ∧
    likeCount userId postId likes = 1 ∧
    likeCount userId postId
      (likesAfterRequest (get_or_create_like userId postId newId likes) likes) = 1 := by
  have hany : likes.any (likeMatches userId postId) = true := List.any_eq_true.mpr hex
  have herr : get_or_create_like userId postId newId likes
      = .error "You have already liked this post." := by
    simp [get_or_create_like, hany]
  have himp : likes.Pairwise fun a b =>
      ¬(likeMatches userId postId a = true ∧ likeMatches userId postId b = true) := by
    refine huniq.imp ?_
    intro a b hab hc
    apply hab
    have h1 := hc.1
    have h2 := hc.2
    simp only [likeMatches, Bool.and_eq_true, beq_iff_eq] at h1 h2
    exact ⟨h1.1.trans h2.1.symm, h1.2.trans h2.2.symm⟩
  have hcount : likeCount userId postId likes = 1 :=
    length_filter_eq_one _ likes hex himp
  refine ⟨herr, hcount, ?_⟩
  rw [herr]
  exact hcount

/-- A like table already holding the like of user 5 on post 9. -/
def likesW : List Like := [{ id := 1, user := 5, post := 9 }]

theorem C8_double_like_rejected_witness :
    get_or_create_like 5 9 2 likesW = .error "You have already liked this post." ∧
    likeCount 5 9 likesW = 1 ∧
    likeCount 5 9 (likesAfterRequest (get_or_create_like 5 9 2 likesW) likesW) = 1 :=
  C8_double_like_rejected 5 9 2 likesW (List.pairwise_singleton _ _)
    ⟨{ id := 1, user := 5, post := 9 }, by decide, by decide⟩

/-! ### Claim C9 -/

/-- Two books sharing their publication year: SQL `ORDER BY` leaves their
relative order unspecified, and the embedded stable order keeps them in
stored order for both directions. -/
def booksTieW : List Book :=
  [{ id := 1, title := "Alpha", publication_year := 2000, author := 1 },
   { id := 2, title := "Beta", publication_year := 2000, author := 1 }]

/-- C9 counterexample: with two books sharing their publication_year, the id
sequence for `ordering=publication_year` is not the exact reverse of the one
for `ordering=-publication_year`: tied rows appear in stored order in both
directions. -/
theorem C9_counterexample :
    ¬ ((bookAscSort .publication_year booksTieW).map Book.id
        = ((bookDescSort .publication_year booksTieW).map Book.id).reverse) := by
  decide

/-- C9 (amended): for every fixed collection state and every declared
sortable field whose values are pairwise distinct across the collection, the
id sequence returned with `ordering=field` is the exact reverse of the id
sequence returned with `ordering=-field`. -/
theorem C9_ordering_reverse (k : SortKey) (books : List Book)
    (hd : books.Pairwise (sortFieldNe k)) :
    (bookAscSort k books).map Book.id
      = ((bookDescSort k books).map Book.id).reverse := by
  have h := sortBy_eq_reverse_of_no_ties (bookLe k) (bookLe_total k)
      (bookLe_trans k) books (hd.imp (fun hne => sortFieldNe_no_ties k _ _ hne))
  unfold bookAscSort bookDescSort
  rw [h, List.map_reverse]

/-- Two books with distinct publication years. -/
def booksDistinctW : List Book :=
  [{ id := 1, title := "Alpha", publication_year := 2001, author := 1 },
   { id := 2, title := "Beta", publication_year := 2000, author := 1 }]

theorem C9_ordering_reverse_witness :
    booksDistinctW.Pairwise (sortFieldNe .publication_year) ∧
    (bookAscSort .publication_year booksDistinctW).map Book.id
      = ((bookDescSort .publication_year booksDistinctW).map Book.id).reverse :=
  ⟨by decide, C9_ordering_reverse .publication_year booksDistinctW (by decide)⟩

/-! ### Claim C10 -/

/-- C10: liking one's own post never creates a Notification.  On a self-like
both the like endpoint's inline creation and the post-save signal leave the
notification table unchanged; and whenever either path does append a
notification, its recipient is the post's author, its actor is the liking
user, its verb is `like`, and the two users differ.  A non-created save
(`created = false`) changes nothing. -/
theorem C10_self_like_no_notification (userId : Nat) (post : Post)
    (newLikeId : Nat) (likes : List Like) (prefs : List NotificationPreference)
    (notifs : List Notification) :
    (userId = post.author →
      (∀ likes' notifs',
        likeEndpoint userId post newLikeId likes notifs = .ok (likes', notifs') →
        notifs' = notifs) ∧
      (like_created_signal true userId post prefs notifs).2 = notifs) ∧
    (∀ likes' notifs',
      likeEndpoint userId post newLikeId likes notifs = .ok (likes', notifs') →
      notifs' = notifs ∨
      ∃ n, notifs' = notifs ++ [n] ∧ n.recipient = post.author ∧
        n.actor = userId ∧ n.verb = "like" ∧ userId ≠ post.author) ∧
    ((like_created_signal true userId post prefs notifs).2 = notifs ∨
      ∃ n, (like_created_signal true userId post prefs notifs).2 = notifs ++ [n] ∧
        n.recipient = post.author ∧ n.actor = userId ∧ n.verb = "like" ∧
        userId ≠ post.author) ∧
    like_created_signal false userId post prefs notifs = (prefs, notifs) := by
  have hend : ∀ likes' notifs',
      likeEndpoint userId post newLikeId likes notifs = .ok (likes', notifs') →
      notifs' = (if post.author ≠ userId then
          notifs ++ [{ recipient := post.author, actor := userId,
                       verb := "like", object_id := post.id }]
        else notifs) := by
    intro likes' notifs' h
    by_cases hany : likes.any (likeMatches userId post.id) = true
    · unfold likeEndpoint at h
      rw [if_pos hany] at h
      cases h
    · unfold likeEndpoint at h
      rw [if_neg hany] at h
      injection h with hpair
      injection hpair with h1 h2
      exact h2.symm
  have hsig : (like_created_signal true userId post prefs notifs).2 = notifs ∨
      ((like_created_signal true userId post prefs notifs).2
          = notifs ++ [{ recipient := post.author, actor := userId,
                         verb := "like", object_id := post.id }] ∧
        userId ≠ post.author) := by
    by_cases hne : userId ≠ post.author
    · cases hfind : prefs.find? (fun pr => pr.user == post.author) with
      | some pr =>
        cases hpl : pr.like_notifications
        · left
          simp [like_created_signal, hne, hfind, hpl]
        · right
          refine ⟨?_, hne⟩
          simp [like_created_signal, hne, hfind, hpl]
      | none =>
        right
        refine ⟨?_, hne⟩
        simp [like_created_signal, hne, hfind]
    · left
      simp [like_created_signal, hne]
  refine ⟨?_, ?_, ?_, rfl⟩
  · intro hself
    have hnn : ¬ (post.author ≠ userId) := fun hne => hne hself.symm
    constructor
    · intro likes' notifs' h
      rw [hend likes' notifs' h, if_neg hnn]
    · rcases hsig with h | ⟨_, hne⟩
      · exact h
      · exact absurd hself hne
  · intro likes' notifs' h
    by_cases hne : post.author ≠ userId
    · right
      refine ⟨{ recipient := post.author, actor := userId,
                verb := "like", object_id := post.id },
              ?_, rfl, rfl, rfl, fun he => hne he.symm⟩
      rw [hend likes' notifs' h, if_pos hne]
    · left
      rw [hend likes' notifs' h, if_neg hne]
  · rcases hsig with h | ⟨heq, hne⟩
    · exact .inl h
    · exact .inr ⟨_, heq, rfl, rfl, rfl, hne⟩

/-- A post whose author is user 3 (for the self-like witness). -/
def postSelfW : Post := { id := 7, author := 3, content := "mine" }

theorem C10_self_like_no_notification_witness :
    ((3 : Nat) = postSelfW.author) ∧
    (([] : List Notification) = []) ∧
    (like_created_signal true 3 postSelfW [] []).2 = [] ∧
    like_created_signal false 3 postSelfW [] [] = ([], []) :=
  ⟨by decide,
   ((C10_self_like_no_notification 3 postSelfW 1 [] [] []).1 (by decide)).1
     [{ id := 1, user := 3, post := 7 }] [] (by rfl),
   ((C10_self_like_no_notification 3 postSelfW 1 [] [] []).1 (by decide)).2,
   (C10_self_like_no_notification 3 postSelfW 1 [] [] []).2.2.2⟩

end Spec2Proof
